import Mathlib

set_option linter.unusedVariables false

/-! Verification of the StreamToy display core: a shallow embedding of the
Python sources (display_state_manager.py, the device backends, led_manager.py,
input_manager.py, web/server.py) together with theorems settling the stated
properties of the system. Machine integers do not overflow in the embedded
code paths; Python floats used for wall-clock arithmetic are modelled by
rationals, and Python dicts by insertion-ordered association lists. -/

/-- Association-list lookup with the first-match semantics of a Python dict
access (dict.get): returns the value stored for the key, if any. -/
def lookupA {α β : Type} [DecidableEq α] (k : α) : List (α × β) → Option β
  | [] => none
  | (k1, v) :: rest => if k1 = k then some v else lookupA k rest

/-- Association-list update with Python dict assignment semantics: an existing
key keeps its position and gets the new value, a new key is appended. -/
def insertA {α β : Type} [DecidableEq α] (k : α) (v : β) : List (α × β) → List (α × β)
  | [] => [(k, v)]
  | (k1, v1) :: rest => if k1 = k then (k, v) :: rest else (k1, v1) :: insertA k v rest

/-- Association-list removal of a key (Python del d[k]): drops the first entry
stored under the key. -/
def eraseA {α β : Type} [DecidableEq α] (k : α) : List (α × β) → List (α × β)
  | [] => []
  | (k1, v1) :: rest => if k1 = k then rest else (k1, v1) :: eraseA k rest

/-- Payload of one viewer notification, as delivered by
DisplayStateManager.set_tile: (row, col, image_path, cache_key). Paths are
kept as strings. -/
structure Payload where
  row : Int
  col : Int
  source : String
  cacheKey : String
deriving DecidableEq, Repr

/-- One registered viewer callback: the list of notifications it has received
so far (in order), plus whether the callback raises on a given payload. A
raised exception is caught and logged by set_tile, so it affects neither
the receipt of the payload by this viewer nor delivery to later viewers. -/
structure Viewer where
  received : List Payload
  raisesOn : Payload → Bool

/-- State of DisplayStateManager: the authoritative tile map
(_tile_state, a dict keyed by (row, col)) and the registered viewer
callbacks in registration order (_viewer_callbacks). -/
structure DSM where
  tileState : List ((Int × Int) × (String × String))
  viewers : List Viewer

/-- Python expression (cache_key or "") in DisplayStateManager.set_tile:
None and the empty string both normalize to the empty string. -/
def normCacheKey : Option String → String
  | none => ""
  | some s => if s = "" then "" else s

/-- DisplayStateManager.set_tile: normalizes the cache key, overwrites the
authoritative slot, then invokes every registered viewer callback with the
identical (row, col, image_path, cache_key) payload, in registration order,
inside a per-callback try/except; every viewer therefore records the
notification regardless of exceptions raised by any callback. No coordinate
validation is performed. -/
def dsmSetTile (m : DSM) (row col : Int) (source : String) (cacheKey : Option String) : DSM :=
  let p : Payload := ⟨row, col, source, normCacheKey cacheKey⟩
  { tileState := insertA (row, col) (source, normCacheKey cacheKey) m.tileState
    viewers := m.viewers.map (fun v => { v with received := v.received ++ [p] }) }

/-- A DisplayStateManager as built by __init__ and register_viewer: empty
tile state and one viewer per registered callback, none having received
anything yet. -/
def initDSM (raisers : List (Payload → Bool)) : DSM :=
  { tileState := [], viewers := raisers.map (fun f => ⟨[], f⟩) }

/-- One set_tile call as issued by scene code. -/
structure Call where
  row : Int
  col : Int
  source : String
  cacheKey : Option String

/-- The payload a call is delivered as. -/
def callPayload (c : Call) : Payload := ⟨c.row, c.col, c.source, normCacheKey c.cacheKey⟩

/-- A sequence of set_tile calls applied in order. -/
def runCalls (m : DSM) (cs : List Call) : DSM :=
  cs.foldl (fun acc c => dsmSetTile acc c.row c.col c.source c.cacheKey) m

theorem dsmSetTile_received (m : DSM) (row col : Int) (src : String) (k : Option String) :
    (dsmSetTile m row col src k).viewers.map Viewer.received
      = m.viewers.map (fun v => v.received ++ [⟨row, col, src, normCacheKey k⟩]) := by
  simp [dsmSetTile]

theorem runCalls_received (cs : List Call) : ∀ (m : DSM),
    (runCalls m cs).viewers.map Viewer.received
      = m.viewers.map (fun v => v.received ++ cs.map callPayload) := by
  induction cs with
  | nil => intro m; simp [runCalls]
  | cons c rest ih =>
    intro m
    have h1 : runCalls m (c :: rest) = runCalls (dsmSetTile m c.row c.col c.source c.cacheKey) rest := by
      simp [runCalls]
    rw [h1, ih]
    simp [dsmSetTile, callPayload, Function.comp]

/-- C1: set_tile overwrites the authoritative slot and synchronously appends
the identical payload to every registered viewer, in registration order, the
per-callback exception guard never skipping a viewer; consequently, for every
set of registered viewers (raising or not) and every sequence of set_tile
calls, all viewers observe the same notification sequence in the same
order, namely the payloads of the calls in call order. -/
theorem C1_set_tile_fanout :
    (∀ (m : DSM) (row col : Int) (src : String) (k : Option String),
        (dsmSetTile m row col src k).tileState
            = insertA (row, col) (src, normCacheKey k) m.tileState
      ∧ (dsmSetTile m row col src k).viewers.map Viewer.received
            = m.viewers.map (fun v => v.received ++ [⟨row, col, src, normCacheKey k⟩]))
  ∧ ∀ (raisers : List (Payload → Bool)) (cs : List Call),
      (runCalls (initDSM raisers) cs).viewers.map Viewer.received
        = raisers.map (fun _ => cs.map callPayload) := by
  constructor
  · intro m row col src k
    exact ⟨rfl, dsmSetTile_received m row col src k⟩
  · intro raisers cs
    rw [runCalls_received]
    simp [initDSM, Function.comp_def]

/-- StreamToyDevice.validate_tile_coords: raises ValueError when the row is
outside 0..TILE_ROWS-1 (TILE_ROWS = 3) or the column is outside
0..TILE_COLS-1 (TILE_COLS = 5); otherwise returns normally. -/
def validateTileCoords (row col : Int) : Except String Unit :=
  if ¬ (0 ≤ row ∧ row < 3) then Except.error "row out of range"
  else if ¬ (0 ≤ col ∧ col < 5) then Except.error "col out of range"
  else Except.ok ()

/-- StreamDock293V3Device.set_tile and WebDevice.set_tile: validate the
coordinates, then store the image in the device tile queue (a dict keyed by
(row, col)); a validation error propagates and leaves the queue unchanged. -/
def deviceSetTile (queue : List ((Int × Int) × String)) (row col : Int) (img : String) :
    Except String (List ((Int × Int) × String)) :=
  match validateTileCoords row col with
  | Except.error e => Except.error e
  | Except.ok _ => Except.ok (insertA (row, col) img queue)

theorem lookupA_insertA_self {α β : Type} [DecidableEq α] (k : α) (v : β) :
    ∀ (l : List (α × β)), lookupA k (insertA k v l) = some v := by
  intro l
  induction l with
  | nil => simp [insertA, lookupA]
  | cons hd tl ih =>
    by_cases h : hd.1 = k
    · simp [insertA, lookupA, h]
    · simp [insertA, lookupA, h, ih]

/-- C3 counterexample: at the concrete out-of-range call
set_tile(5, 7, "x.png", "k"), the Display State Manager does not fail: the
out-of-range slot is stored verbatim in the authoritative state and the
registered viewer is notified with that very payload. -/
theorem C3_counterexample :
    lookupA ((5 : Int), (7 : Int))
        (dsmSetTile (initDSM [fun _ => false]) 5 7 "x.png" (some "k")).tileState
      = some ("x.png", "k")
  ∧ (dsmSetTile (initDSM [fun _ => false]) 5 7 "x.png" (some "k")).viewers.map Viewer.received
      = [[⟨5, 7, "x.png", "k"⟩]] := by
  constructor
  · rfl
  · rfl

/-- C3 amended: coordinate validation lives in the device backends, not in
the Display State Manager. For every coordinate pair with row outside [0,3)
or col outside [0,5), the device-level set_tile fails with a validation
error and leaves the device queue unchanged, never clamping; the Display
set_tile of the Display State Manager, by contrast, performs no validation: it stores the
out-of-range coordinates verbatim and notifies every registered viewer. -/
theorem C3_validation_in_device (row col : Int)
    (h : ¬ (0 ≤ row ∧ row < 3) ∨ ¬ (0 ≤ col ∧ col < 5)) :
    (∀ (queue : List ((Int × Int) × String)) (img : String),
        ∃ e, deviceSetTile queue row col img = Except.error e)
  ∧ ∀ (m : DSM) (src : String) (k : Option String),
      lookupA (row, col) (dsmSetTile m row col src k).tileState
          = some (src, normCacheKey k)
      ∧ (dsmSetTile m row col src k).viewers.map Viewer.received
          = m.viewers.map (fun v => v.received ++ [⟨row, col, src, normCacheKey k⟩]) := by
  constructor
  · intro queue img
    rcases h with h1 | h2
    · exact ⟨"row out of range", by simp [deviceSetTile, validateTileCoords, h1]⟩
    · by_cases hr : 0 ≤ row ∧ row < 3
      · exact ⟨"col out of range", by simp [deviceSetTile, validateTileCoords, hr, h2]⟩
      · exact ⟨"row out of range", by simp [deviceSetTile, validateTileCoords, hr]⟩
  · intro m src k
    exact ⟨lookupA_insertA_self (row, col) (src, normCacheKey k) m.tileState,
      dsmSetTile_received m row col src k⟩

/-- C3 witness: the amended statement instantiated at row 5, col 7. -/
theorem C3_witness :
    (∀ (queue : List ((Int × Int) × String)) (img : String),
        ∃ e, deviceSetTile queue 5 7 img = Except.error e)
  ∧ ∀ (m : DSM) (src : String) (k : Option String),
      lookupA ((5 : Int), (7 : Int)) (dsmSetTile m 5 7 src k).tileState
          = some (src, normCacheKey k)
      ∧ (dsmSetTile m 5 7 src k).viewers.map Viewer.received
          = m.viewers.map (fun v => v.received ++ [⟨5, 7, src, normCacheKey k⟩]) :=
  C3_validation_in_device 5 7 (Or.inl (by decide))

/-- Names of the methods declared @abstractmethod on the StreamToyDevice base
class (the device capability contract, stream_toy_device.py). -/
def streamToyDeviceAbstract : List String :=
  ["initialize", "close", "submit_tiles", "set_tile"]

/-- Names of the methods defined in the body of class StreamDock293V3Device
(streamdock293v3_device.py). -/
def streamDockMethods : List String :=
  ["__init__", "_get_cache_path", "has_cached_tile", "set_tile_with_cache_key",
   "set_tile_from_cache", "initialize", "_to_native_format",
   "_get_cached_native_path", "_ensure_native_cached", "_custom_read_loop",
   "_on_sdk_key_event", "close", "set_tile", "submit",
   "set_background_led_animation", "run_led_animation"]

/-- Names of the methods defined in the body of class WebDevice
(web_device.py). -/
def webDeviceMethods : List String :=
  ["__init__", "_get_cache_path", "has_cached_tile", "set_tile_with_cache_key",
   "set_tile_from_cache", "initialize", "_set_default_led_animation",
   "_start_led_updates", "_led_update_loop", "close", "set_tile", "submit",
   "set_background_led_animation", "run_led_animation", "_on_button_event",
   "on_client_connected"]

/-- Python ABC instantiation check for a StreamToyDevice subclass: the class
can be instantiated only when every abstract method of the base class is
overridden by a method of the same name. -/
def overridesAll (defined : List String) : Bool :=
  streamToyDeviceAbstract.all (fun m => defined.contains m)

/-- Parameter names (after self) of StreamToyDevice.set_tile as declared by
the abstract base class and called by scene code. -/
def baseSetTileParams : List String := ["row", "col", "image_path", "cache_key"]

/-- Parameter names (after self) of StreamDock293V3Device.set_tile. -/
def streamDockSetTileParams : List String := ["row", "col", "image"]

/-- Parameter names (after self) of WebDevice.set_tile. -/
def webDeviceSetTileParams : List String := ["row", "col", "image"]

/-- C2: evaluation at the failing input. Neither device backend overrides the
abstract submit_tiles operation, so the Python ABC machinery rejects
instantiating either class (StreamDock293V3Device() and WebDevice() in
StreamToyRuntime.initialize raise TypeError), and neither backend set_tile
accepts the cache_key parameter that the contract declares and scene code
passes. The capability contract is therefore not implemented by the
backends, contradicting the claim. -/
theorem C2_contract_not_implemented :
    overridesAll streamDockMethods = false
  ∧ overridesAll webDeviceMethods = false
  ∧ streamDockMethods.contains "submit_tiles" = false
  ∧ webDeviceMethods.contains "submit_tiles" = false
  ∧ baseSetTileParams.contains "cache_key" = true
  ∧ streamDockSetTileParams.contains "cache_key" = false
  ∧ webDeviceSetTileParams.contains "cache_key" = false := by
  refine ⟨by decide, by decide, by decide, by decide, by decide, by decide, by decide⟩

/-- Errors raised by StreamDock293V3Device.submit before or during the batch
loop. -/
inductive PyError
  | attributeError
  | runtimeError
deriving DecidableEq, Repr

/-- State of a StreamDock293V3Device as relevant to submit: the queued tiles
(_tile_queue, slot to native-image path), the _current_tiles attribute
(none while the attribute has never been assigned — __init__ does not create
it), and whether sdk_device is set. Tile contents are modelled by their
path strings, the form scene code always queues. -/
structure HWDevice where
  tileQueue : List ((Int × Int) × String)
  currentTiles : Option (List ((Int × Int) × String))
  sdkPresent : Bool

/-- StreamDock293V3Device.submit, the physical write modelled by writeOk
(the transport setKeyImgDualDevice call returning 1): an empty queue returns
at once; a missing sdk_device raises RuntimeError; the change filter then
reads self._current_tiles, raising AttributeError when that attribute was
never assigned; otherwise exactly the queued tiles whose path differs from
the device-local displayed entry are sent, in queue order, _current_tiles is
updated only for tiles whose write returned success (a failed write leaves
the entry of that slot unchanged and the loop continues), and the queue is
cleared. Returns the new state and the slots sent to the transport. -/
def hwSubmit (d : HWDevice) (writeOk : (Int × Int) → String → Bool) :
    Except PyError (HWDevice × List (Int × Int)) :=
  if d.tileQueue.isEmpty then Except.ok (d, [])
  else if ¬ d.sdkPresent then Except.error PyError.runtimeError
  else
    match d.currentTiles with
    | none => Except.error PyError.attributeError
    | some cur =>
      let changed := d.tileQueue.filter (fun sp => lookupA sp.1 cur ≠ some sp.2)
      if changed.isEmpty then Except.ok ({ d with tileQueue := [] }, [])
      else
        let newCur := changed.foldl
          (fun c sp => if writeOk sp.1 sp.2 then insertA sp.1 sp.2 c else c) cur
        Except.ok ({ d with tileQueue := [], currentTiles := some newCur },
          changed.map Prod.fst)

/-- State of a WebDevice as relevant to submit: the queued tiles and the
persistent reconnect cache (_tile_cache). Rendered tile contents are
modelled as strings. -/
structure WebDeviceS where
  tileQueue : List ((Int × Int) × String)
  tileCache : List ((Int × Int) × String)

/-- WebDevice.submit: every queued tile is encoded and emitted to the
browser, with no comparison against the reconnect cache or any other
device-local displayed state; the reconnect cache is updated to the
transmitted content and the queue is cleared. Returns the new state and the
(slot, content) transmissions in queue order. -/
def webSubmit (d : WebDeviceS) : WebDeviceS × List ((Int × Int) × String) :=
  (⟨[], d.tileQueue.foldl (fun c sp => insertA sp.1 sp.2 c) d.tileCache⟩,
   d.tileQueue)

/-- C4 counterexample: a WebDevice whose reconnect cache for slot (0,0)
already holds exactly the queued content (the situation after a successful
submit of that content followed by re-queueing it) still physically
transmits the slot on the next submit: one transmission instead of the
claimed zero. -/
theorem C4_counterexample :
    (webSubmit ⟨[((0, 0), "cover.png|k1")], [((0, 0), "cover.png|k1")]⟩).2
      = [((0, 0), "cover.png|k1")]
  ∧ (webSubmit ⟨[((0, 0), "cover.png|k1")], [((0, 0), "cover.png|k1")]⟩).2 ≠ [] := by
  refine ⟨rfl, by decide⟩

/-- C9: evaluation at the failing input. A hardware device with sdk_device
set and one queued tile — but with the _current_tiles attribute never
assigned, as after __init__, which does not create it — raises
AttributeError at the change filter of submit, before any physical write:
the claimed per-tile failure handling is unreachable, no batch ever
proceeds. -/
theorem C9_submit_attribute_error :
    hwSubmit ⟨[((0, 0), "a_native.jpg")], none, true⟩ (fun _ _ => true)
      = Except.error PyError.attributeError := by
  rfl

/-- LEDManager animation state: the foreground and background animation
slots (carrying an identity for the animation object, none when unset), the
foreground duration (none for Python None, meaning no expiry check) and the
foreground start time. Wall-clock times are rationals. -/
structure LEDState where
  fg : Option String
  fgDuration : Option ℚ
  fgStart : ℚ
  bg : Option String
deriving DecidableEq, Repr

/-- One iteration of LEDManager._animation_loop at time now: if a foreground
animation is present, it is first cleared when a truthy duration (Python
falsiness: None and 0 are falsy) has expired (now - start >= duration); the
foreground is then advanced if still present; the background is advanced
only in the else-branch of the outer foreground test, i.e. only when no
foreground animation was present when the tick began. Returns the new state
and the identity of the animation whose animate() was called this tick
(none when neither ran). -/
def ledTick (s : LEDState) (now : ℚ) : LEDState × Option String :=
  match s.fg with
  | some a =>
    let cleared :=
      match s.fgDuration with
      | some d => if d ≠ 0 ∧ now - s.fgStart ≥ d then true else false
      | none => false
    if cleared then ({ s with fg := none }, none)
    else (s, some a)
  | none =>
    match s.bg with
    | some b => (s, some b)
    | none => (s, none)

/-- C5 counterexample: with background B set and run_led_animation(A, 1.0)
issued at time 0, the tick at time 1 — the very tick where the foreground
duration expires — clears the foreground and advances no animation at all:
neither A nor the present background B, contradicting the claim that B is
advanced on that tick (and that exactly one animation is advanced per
tick). -/
theorem C5_counterexample :
    ledTick ⟨some "A", some 1, 0, some "B"⟩ 1
      = (⟨none, some 1, 0, some "B"⟩, none) := by
  norm_num [ledTick]

/-- C5 amended: at most one animation is advanced per tick: while a
foreground animation is present and its duration has not expired (or is
None or 0, hence never checked), the foreground is advanced; on the very
tick where a nonzero duration has expired the foreground is cleared and no
animation is advanced, the background included; only a tick that begins
with no foreground animation advances the background, when present. In the
scenario run_led_animation(A, 1.0) with background B: A is advanced on
ticks within the window, the first tick at or past expiry advances nothing
and clears A, and B is advanced on every tick thereafter. -/
theorem C5_tick_amended (s : LEDState) (now : ℚ) :
    (∀ a, s.fg = some a →
        ((∀ d, s.fgDuration = some d → d = 0 ∨ now - s.fgStart < d) →
            ledTick s now = (s, some a))
      ∧ ∀ d, s.fgDuration = some d → d ≠ 0 → now - s.fgStart ≥ d →
          ledTick s now = ({ s with fg := none }, none))
  ∧ (s.fg = none → ledTick s now = (s, s.bg))
  ∧ ∀ x, (ledTick s now).2 = some x → s.fg = some x ∨ (s.fg = none ∧ s.bg = some x) := by
  refine ⟨?_, ?_, ?_⟩
  · intro a hfg
    constructor
    · intro hlive
      cases hdur : s.fgDuration with
      | none => simp [ledTick, hfg, hdur]
      | some d =>
        rcases hlive d hdur with h0 | hlt
        · simp [ledTick, hfg, hdur, h0]
        · have hnot : ¬ (d ≤ now - s.fgStart) := not_le.mpr hlt
          simp [ledTick, hfg, hdur, hnot]
    · intro d hdur hd0 hexp
      simp [ledTick, hfg, hdur, hd0, hexp]
  · intro hfg
    cases hbg : s.bg with
    | none => simp [ledTick, hfg, hbg]
    | some b => simp [ledTick, hfg, hbg]
  · intro x hx
    simp only [ledTick] at hx
    split at hx
    · rename_i a hfg
      split at hx
      · simp at hx
      · simp only at hx
        rw [Option.some_inj] at hx
        exact Or.inl (by rw [hfg, hx])
    · rename_i hfg
      split at hx
      · rename_i b hbg
        simp only at hx
        rw [Option.some_inj] at hx
        exact Or.inr ⟨hfg, by rw [hbg, hx]⟩
      · simp at hx

/-- C5 witness: the amended statement applied in the scenario with
foreground A (duration 1, started at 0) and background B, at a tick inside
the window (now = 1/2): the foreground is advanced and the state kept. -/
theorem C5_witness :
    ledTick ⟨some "A", some 1, 0, some "B"⟩ (1 / 2)
      = (⟨some "A", some 1, 0, some "B"⟩, some "A") :=
  ((C5_tick_amended ⟨some "A", some 1, 0, some "B"⟩ (1 / 2)).1 "A" rfl).1
    (by intro d hd; rw [Option.some_inj] at hd; right; rw [← hd]; norm_num)

theorem hwSubmit_main (d : HWDevice) (cur : List ((Int × Int) × String))
    (w : (Int × Int) → String → Bool) (hcur : d.currentTiles = some cur)
    (hsdk : d.sdkPresent = true) (hne : d.tileQueue.isEmpty = false) :
    hwSubmit d w
      = (if (d.tileQueue.filter (fun sp => lookupA sp.1 cur ≠ some sp.2)).isEmpty then
          Except.ok ({ d with tileQueue := [] }, [])
        else
          Except.ok
            ({ d with
                tileQueue := [],
                currentTiles := some
                  ((d.tileQueue.filter (fun sp => lookupA sp.1 cur ≠ some sp.2)).foldl
                    (fun c sp => if w sp.1 sp.2 then insertA sp.1 sp.2 c else c) cur) },
              (d.tileQueue.filter (fun sp => lookupA sp.1 cur ≠ some sp.2)).map Prod.fst)) := by
  unfold hwSubmit
  rw [hne, hcur]
  simp [hsdk]

theorem not_mem_changed (queue cur : List ((Int × Int) × String)) (s : Int × Int) (p : String)
    (hq : ∀ q, (s, q) ∈ queue → q = p) (hl : lookupA s cur = some p) :
    s ∉ (queue.filter (fun sp => lookupA sp.1 cur ≠ some sp.2)).map Prod.fst := by
  intro hmem
  rcases List.mem_map.mp hmem with ⟨sp, hsp, hfst⟩
  rcases List.mem_filter.mp hsp with ⟨hqmem, hpred⟩
  have h2 : sp.2 = p := by
    apply hq
    rw [← hfst]
    exact hqmem
  have hne2 : lookupA sp.1 cur ≠ some sp.2 := of_decide_eq_true hpred
  apply hne2
  rw [hfst, h2, hl]

/-- C4 amended: the transmit de-duplication exists only in the hardware
backend. On the hardware submit, a queued slot whose path equals that
device-local displayed entry of that slot (_current_tiles) is dropped silently
and never transmitted; since the tile queue is a dict keyed by slot, each
submit transmits a slot at most once on either backend; but the web submit
performs no de-duplication at all: it re-transmits every queued slot
regardless of the reconnect cache, so re-issuing an unchanged tile and
submitting again does produce a physical transmit on the web viewer. -/
theorem C4_dedup_amended :
    (∀ (d : HWDevice) (cur : List ((Int × Int) × String))
        (w : (Int × Int) → String → Bool) (s : Int × Int) (p : String)
        (res : HWDevice × List (Int × Int)),
        d.currentTiles = some cur →
        (∀ q, (s, q) ∈ d.tileQueue → q = p) →
        lookupA s cur = some p →
        hwSubmit d w = Except.ok res →
        s ∉ res.2)
  ∧ (∀ (d : WebDeviceS), (webSubmit d).2 = d.tileQueue)
  ∧ (∀ (d : WebDeviceS),
        (d.tileQueue.map Prod.fst).Nodup →
        ((webSubmit d).2.map Prod.fst).Nodup)
  ∧ ∀ (d : HWDevice) (cur : List ((Int × Int) × String))
      (w : (Int × Int) → String → Bool)
      (res : HWDevice × List (Int × Int)),
      d.currentTiles = some cur →
      (d.tileQueue.map Prod.fst).Nodup →
      hwSubmit d w = Except.ok res →
      res.2.Nodup := by
  refine ⟨?_, ?_, ?_, ?_⟩
  · intro d cur w s p res hcur hq hl hok
    by_cases hemp : d.tileQueue.isEmpty
    · unfold hwSubmit at hok
      rw [if_pos hemp] at hok
      cases hok
      simp
    · by_cases hsdk : d.sdkPresent
      · rw [hwSubmit_main d cur w hcur (by simpa using hsdk) (by simpa using hemp)] at hok
        split at hok
        · cases hok
          simp
        · cases hok
          exact not_mem_changed d.tileQueue cur s p hq hl
      · unfold hwSubmit at hok
        rw [if_neg hemp, if_pos hsdk] at hok
        simp at hok
  · intro d
    rfl
  · intro d hnd
    exact hnd
  · intro d cur w res hcur hnd hok
    by_cases hemp : d.tileQueue.isEmpty
    · unfold hwSubmit at hok
      rw [if_pos hemp] at hok
      cases hok
      simp
    · by_cases hsdk : d.sdkPresent
      · rw [hwSubmit_main d cur w hcur (by simpa using hsdk) (by simpa using hemp)] at hok
        split at hok
        · cases hok
          simp
        · cases hok
          have hsub : List.Sublist
              ((d.tileQueue.filter (fun sp => lookupA sp.1 cur ≠ some sp.2)).map Prod.fst)
              (d.tileQueue.map Prod.fst) :=
            (List.filter_sublist d.tileQueue).map Prod.fst
          simpa using hnd.sublist hsub
      · unfold hwSubmit at hok
        rw [if_neg hemp, if_pos hsdk] at hok
        simp at hok

/-- C4 witness: the amended statement applied to a hardware device whose
only queued entry for slot (0,0) matches the displayed entry (nothing is
transmitted for the slot) and to a web device with one queued slot. -/
theorem C4_witness :
    ((0, 0) : Int × Int) ∉
        (({ tileQueue := [], currentTiles := some [((0, 0), "p_native.jpg")],
            sdkPresent := true } : HWDevice), ([] : List (Int × Int))).2
  ∧ (webSubmit ⟨[((0, 0), "q.png")], []⟩).2 = [((0, 0), "q.png")]
  ∧ ((webSubmit ⟨[((0, 0), "q.png")], []⟩).2.map Prod.fst).Nodup := by
  refine ⟨?_, ?_, ?_⟩
  · exact (C4_dedup_amended.1
      ⟨[((0, 0), "p_native.jpg")], some [((0, 0), "p_native.jpg")], true⟩
      [((0, 0), "p_native.jpg")] (fun _ _ => true) (0, 0) "p_native.jpg"
      (⟨[], some [((0, 0), "p_native.jpg")], true⟩, [])
      rfl (by intro q hq; simp at hq; exact hq) (by rfl) (by rfl))
  · exact C4_dedup_amended.2.1 ⟨[((0, 0), "q.png")], []⟩
  · exact C4_dedup_amended.2.2.1 ⟨[((0, 0), "q.png")], []⟩ (by decide)

/-- The CALLBACK_BUTTON_TO_TILE dict of streamdock293v3_device.py: lookup of
a post-remap button index, mapping callback indices 11-15 to the top tile
row, 6-10 to the middle row and 1-5 to the bottom row. -/
def callbackButtonToTile (k : Nat) : Option (Int × Int) :=
  if k = 11 then some (0, 0) else if k = 12 then some (0, 1)
  else if k = 13 then some (0, 2) else if k = 14 then some (0, 3)
  else if k = 15 then some (0, 4)
  else if k = 6 then some (1, 0) else if k = 7 then some (1, 1)
  else if k = 8 then some (1, 2) else if k = 9 then some (1, 3)
  else if k = 10 then some (1, 4)
  else if k = 1 then some (2, 0) else if k = 2 then some (2, 1)
  else if k = 3 then some (2, 2) else if k = 4 then some (2, 3)
  else if k = 5 then some (2, 4)
  else none

/-- Modelled from the spec: KEY_MAPPING, which _custom_read_loop imports
from the vendor SDK module StreamDock.Devices.StreamDock — vendor code that
is not under src/. Per the spec and the comment block above
CALLBACK_BUTTON_TO_TILE, the mapping compensates a physical row inversion:
raw indices 1-5 (physical top row) become 11-15, raw 11-15 (physical bottom
row) become 1-5, and the middle row 6-10 is unchanged. -/
def keyMapping (k : Nat) : Nat :=
  if 1 ≤ k ∧ k ≤ 5 then k + 10
  else if 11 ≤ k ∧ k ≤ 15 then k - 10
  else k

/-- One decoded transport.read_ result as consumed by the custom read loop:
the frame bytes at offsets 3 and 4, the raw key byte and the status byte. -/
structure Frame where
  b3 : Nat
  b4 : Nat
  key : Nat
  status : Nat
deriving DecidableEq, Repr

/-- Body of StreamDock293V3Device._custom_read_loop for one returned frame:
first, if frame bytes 3 and 4 are both zero while the busy flag is set, the
busy flag is cleared; then — independently of the busy check — if the key
byte is not the 0xFF sentinel and lies in 1..15, it is remapped through
KEY_MAPPING, looked up in CALLBACK_BUTTON_TO_TILE, and the registered
callback is dispatched once with (row, col, status == 0x01). Returns the
new busy flag and the dispatched payload, if any. -/
def readLoopStep (busy : Bool) (f : Frame) : Bool × Option (Int × Int × Bool) :=
  let busy2 := if f.b3 = 0 ∧ f.b4 = 0 ∧ busy = true then false else busy
  let dispatch :=
    if f.key ≠ 0xFF ∧ 1 ≤ f.key ∧ f.key ≤ 15 then
      match callbackButtonToTile (keyMapping f.key) with
      | some rc => some (rc.1, rc.2, f.status == 1)
      | none => none
    else none
  (busy2, dispatch)

/-- C6 counterexample: the concrete frame with bytes 3 and 4 both zero, key
byte 1 and status 0x01, read while busy is set, both clears busy and
dispatches a button callback (raw key 1 remaps to 11, tile (0,0), pressed),
contradicting the claim that such a frame dispatches no button callback. -/
theorem C6_counterexample :
    readLoopStep true ⟨0, 0, 1, 1⟩ = (false, some (0, 0, true)) := by
  decide

/-- C6 amended: the ready-ACK handling and the button dispatch are
independent checks on the same frame, not exclusive branches. A frame with
bytes 3 and 4 both zero while busy clears busy, and otherwise busy is
unchanged; separately, a frame whose key byte is not the 0xFF sentinel and
lies in 1..15 dispatches exactly one callback for the post-remap index
found in CALLBACK_BUTTON_TO_TILE — post-remap indices 11-15 map to tile row
0, 6-10 to row 1 and 1-5 to row 2, each to the documented column — with
is_pressed true exactly when the status byte is 0x01; any other frame
dispatches nothing. A frame can do both at once. -/
theorem C6_read_loop_amended :
    (∀ (busy : Bool) (f : Frame), f.b3 = 0 → f.b4 = 0 → busy = true →
        (readLoopStep busy f).1 = false)
  ∧ (∀ (busy : Bool) (f : Frame), ¬ (f.b3 = 0 ∧ f.b4 = 0 ∧ busy = true) →
        (readLoopStep busy f).1 = busy)
  ∧ (∀ (busy : Bool) (f : Frame), f.key ≠ 0xFF → 1 ≤ f.key → f.key ≤ 15 →
        (readLoopStep busy f).2
          = (callbackButtonToTile (keyMapping f.key)).map
              (fun rc => (rc.1, rc.2, f.status == 1)))
  ∧ (∀ (busy : Bool) (f : Frame), ¬ (f.key ≠ 0xFF ∧ 1 ≤ f.key ∧ f.key ≤ 15) →
        (readLoopStep busy f).2 = none)
  ∧ (∀ k : Nat, 11 ≤ k → k ≤ 15 → callbackButtonToTile k = some (0, (k : Int) - 11))
  ∧ (∀ k : Nat, 6 ≤ k → k ≤ 10 → callbackButtonToTile k = some (1, (k : Int) - 6))
  ∧ (∀ k : Nat, 1 ≤ k → k ≤ 5 → callbackButtonToTile k = some (2, (k : Int) - 1)) := by
  refine ⟨?_, ?_, ?_, ?_, ?_, ?_, ?_⟩
  · intro busy f h3 h4 hb
    simp [readLoopStep, h3, h4, hb]
  · intro busy f h
    simp [readLoopStep, h]
  · intro busy f hk h1 h15
    simp only [readLoopStep]
    rw [if_pos ⟨hk, h1, h15⟩]
    cases callbackButtonToTile (keyMapping f.key) with
    | none => rfl
    | some rc => rfl
  · intro busy f h
    simp [readLoopStep, h]
  · intro k hlo hhi
    interval_cases k <;> rfl
  · intro k hlo hhi
    interval_cases k <;> rfl
  · intro k hlo hhi
    interval_cases k <;> rfl

/-- C6 witness: the amended statement applied to a non-ACK frame carrying
key byte 6 (post-remap 6, tile (1,0)) with a released status byte, read
while not busy. -/
theorem C6_witness :
    (readLoopStep false ⟨1, 0, 6, 0⟩).1 = false
  ∧ (readLoopStep false ⟨1, 0, 6, 0⟩).2
      = (callbackButtonToTile (keyMapping 6)).map (fun rc => (rc.1, rc.2, false))
  ∧ callbackButtonToTile 6 = some (1, 0) := by
  refine ⟨?_, ?_, ?_⟩
  · exact C6_read_loop_amended.2.1 false ⟨1, 0, 6, 0⟩ (by decide)
  · exact C6_read_loop_amended.2.2.1 false ⟨1, 0, 6, 0⟩ (by decide) (by decide) (by decide)
  · exact C6_read_loop_amended.2.2.2.2.2.1 6 (by decide) (by decide)

/-- A tile_update message pushed over the Socket.IO channel. -/
structure TileMsg where
  row : Int
  col : Int
  image : String
deriving DecidableEq, Repr

/-- server.emit_tile_update: calls socketio.emit with no target room, which
— as the documentation of the function itself states — emits the tile_update to
every connected client. Returns the (client, message) deliveries, one per
connected client. -/
def emitTileUpdate (clients : List Nat) (row col : Int) (img : String) :
    List (Nat × TileMsg) :=
  clients.map (fun c => (c, ⟨row, col, img⟩))

/-- WebDevice.on_client_connected: replays every entry of the reconnect
tile cache, in cache order, through server.emit_tile_update, given the
clients connected at that moment (the newly connected client included).
Returns all deliveries produced by the replay. -/
def onClientConnected (cache : List ((Int × Int) × String)) (clients : List Nat) :
    List (Nat × TileMsg) :=
  cache.foldl (fun acc sp => acc ++ emitTileUpdate clients sp.1.1 sp.1.2 sp.2) []

/-- C7 counterexample: with client 0 already connected and client 1 just
connecting, the replay of a one-tile reconnect cache is delivered to client
0 as well — the claim that the replayed tile_update messages reach no other
connected client fails at this concrete input. -/
theorem C7_counterexample :
    onClientConnected [((0, 0), "img1")] [0, 1]
      = [(0, ⟨0, 0, "img1"⟩), (1, ⟨0, 0, "img1"⟩)]
  ∧ (0, (⟨0, 0, "img1"⟩ : TileMsg)) ∈ onClientConnected [((0, 0), "img1")] [0, 1] := by
  refine ⟨by decide, by decide⟩

theorem mem_foldl_emit (clients : List Nat) (x : Nat × TileMsg) :
    ∀ (l : List ((Int × Int) × String)) (acc : List (Nat × TileMsg)),
      x ∈ acc →
      x ∈ l.foldl (fun acc2 q => acc2 ++ emitTileUpdate clients q.1.1 q.1.2 q.2) acc := by
  intro l
  induction l with
  | nil => intro acc h; simpa using h
  | cons hd tl ih =>
    intro acc h
    simp only [List.foldl_cons]
    exact ih (acc ++ emitTileUpdate clients hd.1.1 hd.1.2 hd.2)
      (List.mem_append_left (emitTileUpdate clients hd.1.1 hd.1.2 hd.2) h)

/-- C7 amended: the reconnect replay is broadcast: on every client
(re)connect, each cached tile is emitted to every currently connected
client — the newly connected one and all others alike — because
emit_tile_update targets no room. -/
theorem C7_broadcast_replay (cache : List ((Int × Int) × String)) (clients : List Nat)
    (c : Nat) (hc : c ∈ clients) (sp : (Int × Int) × String) (hsp : sp ∈ cache) :
    (c, (⟨sp.1.1, sp.1.2, sp.2⟩ : TileMsg)) ∈ onClientConnected cache clients := by
  have key : ∀ (l : List ((Int × Int) × String)) (acc : List (Nat × TileMsg)),
      sp ∈ l →
      (c, (⟨sp.1.1, sp.1.2, sp.2⟩ : TileMsg))
        ∈ l.foldl (fun acc2 q => acc2 ++ emitTileUpdate clients q.1.1 q.1.2 q.2) acc := by
    intro l
    induction l with
    | nil => intro acc h; simp at h
    | cons hd tl ih =>
      intro acc h
      simp only [List.foldl_cons]
      rcases List.mem_cons.mp h with heq | hmem
      · subst heq
        apply mem_foldl_emit
        apply List.mem_append_right
        exact List.mem_map.mpr ⟨c, hc, rfl⟩
      · exact ih (acc ++ emitTileUpdate clients hd.1.1 hd.1.2 hd.2) hmem
  exact key cache [] hsp

/-- C7 witness: the amended statement applied with clients 0 and 1 and a
one-tile cache: the already-connected client 0 receives the replayed
tile. -/
theorem C7_witness :
    ((0 : Nat), (⟨0, 0, "img1"⟩ : TileMsg)) ∈ onClientConnected [((0, 0), "img1")] [0, 1] :=
  C7_broadcast_replay [((0, 0), "img1")] [0, 1] 0 (by decide) ((0, 0), "img1") (by decide)

/-- One input event as produced by InputManager (input_manager.py).
Wall-clock timestamps are modelled as rationals. -/
structure InputEvent where
  row : Int
  col : Int
  isPressed : Bool
  timestamp : ℚ
  longPress : Bool
deriving DecidableEq, Repr

/-- State of an InputManager: the configured long-press threshold, the
active-press map (_active_presses, key to press start time) and the event
queue in FIFO order. -/
structure InputManagerS where
  threshold : ℚ
  activePresses : List ((Int × Int) × ℚ)
  queue : List InputEvent
deriving DecidableEq, Repr

/-- InputManager.on_device_key_event at wall-clock time now: a press records
the start time for the key (overwriting any previous record) and enqueues a
press event, whose long_press is never set; a release computes the held
duration from the recorded start time — 0.0 when no press is recorded for
the key, in which case the active-press map is untouched — removes the
record if present, and enqueues a release event with long_press set exactly
when the duration reached the threshold. -/
def onDeviceKeyEvent (m : InputManagerS) (row col : Int) (isPressed : Bool) (now : ℚ) :
    InputManagerS :=
  if isPressed then
    { m with
        activePresses := insertA (row, col) now m.activePresses,
        queue := m.queue ++ [⟨row, col, true, now, false⟩] }
  else
    let dur : ℚ :=
      match lookupA (row, col) m.activePresses with
      | some t0 => now - t0
      | none => 0
    let ap :=
      match lookupA (row, col) m.activePresses with
      | some _ => eraseA (row, col) m.activePresses
      | none => m.activePresses
    { m with
        activePresses := ap,
        queue := m.queue ++ [⟨row, col, false, now, decide (dur ≥ m.threshold)⟩] }

/-- C8: a press of (row, col) at time t0 followed by a release of the same
key at t0 + delta enqueues exactly one release event, whose long_press is
true precisely when delta reaches the configured threshold; and a press
event is always enqueued with long_press false, for every manager state. -/
theorem C8_long_press_iff :
    (∀ (m : InputManagerS) (row col : Int) (t0 delta : ℚ),
        (onDeviceKeyEvent (onDeviceKeyEvent m row col true t0) row col false (t0 + delta)).queue
          = (onDeviceKeyEvent m row col true t0).queue
              ++ [⟨row, col, false, t0 + delta, decide (delta ≥ m.threshold)⟩])
  ∧ ∀ (m : InputManagerS) (row col : Int) (t : ℚ),
      (onDeviceKeyEvent m row col true t).queue = m.queue ++ [⟨row, col, true, t, false⟩] := by
  constructor
  · intro m row col t0 delta
    have hli : lookupA (row, col) (insertA (row, col) t0 m.activePresses) = some t0 :=
      lookupA_insertA_self (row, col) t0 m.activePresses
    have hdur : t0 + delta - t0 = delta := by ring
    simp [onDeviceKeyEvent, hli, hdur]
  · intro m row col t
    simp [onDeviceKeyEvent]

/-- C10 counterexample: with the long-press threshold configured to 0 and no
recorded active press, a release of key (0,0) is enqueued with long_press
true (the zero duration reaches the zero threshold), contradicting the
claim that such a release carries long_press false for every threshold
value. -/
theorem C10_counterexample :
    (onDeviceKeyEvent ⟨0, [], []⟩ 0 0 false 5).queue = [⟨0, 0, false, 5, true⟩] := by
  norm_num [onDeviceKeyEvent, lookupA]

/-- C10 amended: a release of a key with no recorded active press enqueues a
release event whose long_press equals (0 >= threshold) — hence false for
every positive threshold, true for a non-positive one — and leaves the
active-press map unchanged. -/
theorem C10_unmatched_release (m : InputManagerS) (row col : Int) (now : ℚ)
    (h : lookupA (row, col) m.activePresses = none) :
    (onDeviceKeyEvent m row col false now).queue
        = m.queue ++ [⟨row, col, false, now, decide ((0 : ℚ) ≥ m.threshold)⟩]
  ∧ (onDeviceKeyEvent m row col false now).activePresses = m.activePresses
  ∧ (0 < m.threshold →
      (onDeviceKeyEvent m row col false now).queue
        = m.queue ++ [⟨row, col, false, now, false⟩]) := by
  refine ⟨?_, ?_, ?_⟩
  · simp [onDeviceKeyEvent, h]
  · simp [onDeviceKeyEvent, h]
  · intro hpos
    have hfalse : ((0 : ℚ) ≥ m.threshold) = False := by
      simp [not_le.mpr hpos]
    simp [onDeviceKeyEvent, h, hfalse]

/-- C10 witness: the amended statement applied to a manager with the default
threshold 3, empty active-press map and empty queue, released at time 5:
the event is enqueued with long_press false and the map stays empty. -/
theorem C10_witness :
    (onDeviceKeyEvent ⟨3, [], []⟩ 0 0 false 5).queue
        = [] ++ [⟨0, 0, false, 5, decide ((0 : ℚ) ≥ 3)⟩]
  ∧ (onDeviceKeyEvent ⟨3, [], []⟩ 0 0 false 5).activePresses = []
  ∧ (0 < (3 : ℚ) →
      (onDeviceKeyEvent ⟨3, [], []⟩ 0 0 false 5).queue = [] ++ [⟨0, 0, false, 5, false⟩]) :=
  C10_unmatched_release ⟨3, [], []⟩ 0 0 5 rfl
